import Mathlib

/-!
Verification of `src/ios/Blaze-Bridging-Header.h` from the Blaze repository.

The file is an Objective-C bridging header: six comment lines, blank lines,
an include guard (`#ifndef` / `#define` / `#endif`) and five `#import`
directives for React interop headers.  We embed the file as its exact list
of text lines, classify each line the way the C preprocessor sees it, and
give a small-step preprocessor semantics over a state holding the declared
program entities, the defined macro names and the processed imports.
-/

namespace Blaze

/-- The raw text of `src/ios/Blaze-Bridging-Header.h`, one list entry per
source line, in order. -/
def sourceText : List String :=
  [ "//"
  , "//  Blaze-Bridging-Header.h"
  , "//  Blaze"
  , "//"
  , "//  Bridging header for Swift/Objective-C interop"
  , "//"
  , ""
  , "#ifndef Blaze_Bridging_Header_h"
  , "#define Blaze_Bridging_Header_h"
  , ""
  , "#import <React/RCTBridgeModule.h>"
  , "#import <React/RCTEventEmitter.h>"
  , "#import <React/RCTViewManager.h>"
  , "#import <React/RCTConvert.h>"
  , "#import <React/RCTLog.h>"
  , ""
  , "#endif /* Blaze_Bridging_Header_h */"
  ]

/-- A source line as the preprocessor classifies it: blank, a `//` comment,
one of the directives appearing in the file, or an ordinary text line
(a declaration or statement handed to the compiler proper). -/
inductive PPLine where
  | blank : PPLine
  | comment : PPLine
  | ifndefD : String → PPLine
  | defineD : String → PPLine
  | importD : String → PPLine
  | endifD : PPLine
  | declLine : String → PPLine
deriving DecidableEq

/-- Is the character horizontal or vertical whitespace? -/
def isWS (c : Char) : Bool :=
  c = ' ' || c = '\t' || c = '\n' || c = '\r'

/-- Trim whitespace from both ends of a character list. -/
def trimChars (cs : List Char) : List Char :=
  ((cs.dropWhile isWS).reverse.dropWhile isWS).reverse

/-- Does the second list start with the first? -/
def startsWithChars : List Char → List Char → Bool
  | [], _ => true
  | _ :: _, [] => false
  | p :: ps, c :: cs => p = c && startsWithChars ps cs

/-- Strip the angle brackets from an `#import <...>` operand. -/
def importTarget (cs : List Char) : List Char :=
  if cs.head? = some '<' && cs.getLast? = some '>'
  then (cs.drop 1).dropLast else cs

/-- Classify one raw source line. -/
def classifyLine (l : String) : PPLine :=
  let t := trimChars l.data
  if t = [] then .blank
  else if startsWithChars ['/', '/'] t then .comment
  else if startsWithChars ['#', 'i', 'f', 'n', 'd', 'e', 'f'] t then
    .ifndefD (String.mk (trimChars (t.drop 7)))
  else if startsWithChars ['#', 'd', 'e', 'f', 'i', 'n', 'e'] t then
    .defineD (String.mk (trimChars (t.drop 7)))
  else if startsWithChars ['#', 'i', 'm', 'p', 'o', 'r', 't'] t then
    .importD (String.mk (importTarget (trimChars (t.drop 7))))
  else if startsWithChars ['#', 'e', 'n', 'd', 'i', 'f'] t then .endifD
  else .declLine (String.mk t)

/-- The bridging header, line by line, as classified lines. -/
def headerLines : List PPLine := sourceText.map classifyLine

/-- The guard macro of the header. -/
def guardName : String := "Blaze_Bridging_Header_h"

/-- The five React interop headers, in the order the file imports them. -/
def reactHeaders : List String :=
  [ "React/RCTBridgeModule.h"
  , "React/RCTEventEmitter.h"
  , "React/RCTViewManager.h"
  , "React/RCTConvert.h"
  , "React/RCTLog.h"
  ]

/-- The translation-unit state a header file acts on: the program entities
declared so far, the macro names defined so far, and the headers imported
so far (each in order of appearance). -/
structure CState where
  entities : List String
  macros : List String
  imports : List String
deriving DecidableEq

/-- Preprocessing failures: an `#endif` with no open conditional, or a
conditional still open at end of file. -/
inductive PPError where
  | unmatchedEndif : PPError
  | unterminatedConditional : PPError
deriving DecidableEq

/-- `#define n`: record `n` as defined (a redefinition leaves the
environment unchanged). -/
def insertDefine (ms : List String) (n : String) : List String :=
  if ms.contains n then ms else ms ++ [n]

/-- Process one classified line.  `stack` holds the truth value of each
open conditional, innermost first; a non-directive line only takes effect
when every open conditional is active. -/
def stepLine (st : CState) (stack : List Bool) :
    PPLine → Except PPError (CState × List Bool)
  | .ifndefD n => .ok (st, (! st.macros.contains n) :: stack)
  | .endifD =>
    match stack with
    | [] => .error .unmatchedEndif
    | _ :: rest => .ok (st, rest)
  | l =>
    if stack.all (fun b => b) then
      match l with
      | .defineD n => .ok ({ st with macros := insertDefine st.macros n }, stack)
      | .importD h => .ok ({ st with imports := st.imports ++ [h] }, stack)
      | .declLine t => .ok ({ st with entities := st.entities ++ [t] }, stack)
      | _ => .ok (st, stack)
    else .ok (st, stack)

/-- Process a list of classified lines from a given state and conditional
stack. -/
def runLines : CState → List Bool → List PPLine → Except PPError (CState × List Bool)
  | st, stack, [] => .ok (st, stack)
  | st, stack, l :: ls =>
    match stepLine st stack l with
    | .error e => .error e
    | .ok (st', stack') => runLines st' stack' ls

/-- Process a whole file: start with no open conditional and require every
conditional closed at end of file. -/
def processFile (st : CState) (ls : List PPLine) : Except PPError CState :=
  match runLines st [] ls with
  | .error e => .error e
  | .ok (st', stack) => if stack.isEmpty then .ok st' else .error .unterminatedConditional

/-- Process the bridging header from a given translation-unit state. -/
def processHeader (st : CState) : Except PPError CState :=
  processFile st headerLines

/-- Is the line an `#import` directive? -/
def isImportLine : PPLine → Bool
  | .importD _ => true
  | _ => false

/-- Is the line a `//` comment? -/
def isCommentLine : PPLine → Bool
  | .comment => true
  | _ => false

/-- Is the line blank? -/
def isBlankLine : PPLine → Bool
  | .blank => true
  | _ => false

/-- Is the line a preprocessor directive? -/
def isDirectiveLine : PPLine → Bool
  | .ifndefD _ => true
  | .defineD _ => true
  | .importD _ => true
  | .endifD => true
  | _ => false

/-- The headers imported by a list of lines, in order. -/
def fileImports (ls : List PPLine) : List String :=
  ls.filterMap fun l =>
    match l with
    | .importD h => some h
    | _ => none

/-- The declaration lines (anything that is not blank, a comment or a
directive) of a list of lines. -/
def fileDecls (ls : List PPLine) : List String :=
  ls.filterMap fun l =>
    match l with
    | .declLine t => some t
    | _ => none

/-- Hand a list of declarations to the compiler: each one adds an entity. -/
def declareEntities (st : CState) (ds : List String) : CState :=
  { st with entities := st.entities ++ ds }

/-- Does an `Except` result denote success? -/
def exceptOk : Except PPError CState → Bool
  | .ok _ => true
  | .error _ => false

instance : DecidableEq (Except PPError CState) := fun a b =>
  match a, b with
  | .error a, .error b =>
    if h : a = b then .isTrue (by rw [h]) else .isFalse (by simp [h])
  | .ok a, .ok b =>
    if h : a = b then .isTrue (by rw [h]) else .isFalse (by simp [h])
  | .error _, .ok _ => .isFalse (by simp)
  | .ok _, .error _ => .isFalse (by simp)

/-- The headers a run of the bridging header adds to the import list. -/
def headerImportsAdded (st : CState) : List String :=
  match processHeader st with
  | .ok st' => st'.imports.drop st.imports.length
  | .error _ => []

/-- The macro names a run of the bridging header adds to the macro
environment. -/
def headerMacrosAdded (st : CState) : List String :=
  match processHeader st with
  | .ok st' => st'.macros.drop st.macros.length
  | .error _ => []

theorem headerLines_eq :
    headerLines =
      [ .comment, .comment, .comment, .comment, .comment, .comment, .blank
      , .ifndefD guardName, .defineD guardName, .blank
      , .importD "React/RCTBridgeModule.h"
      , .importD "React/RCTEventEmitter.h"
      , .importD "React/RCTViewManager.h"
      , .importD "React/RCTConvert.h"
      , .importD "React/RCTLog.h"
      , .blank, .endifD ] := by
  decide

/-- Master evaluation lemma: from any translation-unit state, processing
the bridging header succeeds; if the guard macro is already defined the
state is returned unchanged, otherwise the guard macro and the five
React imports are appended. -/
theorem processHeader_eq (st : CState) :
    processHeader st =
      .ok (if st.macros.contains guardName then st
           else { st with macros := st.macros ++ [guardName],
                          imports := st.imports ++ reactHeaders }) := by
  rw [processHeader, processFile, headerLines_eq]
  by_cases h : guardName ∈ st.macros <;>
    simp [runLines, stepLine, insertDefine, h, reactHeaders]

/-- Claim C1: the headers imported by the bridging header are exactly the
five React interop headers, pairwise distinct; no other header gets
pulled in. -/
theorem blaze_header_imports_exactly_react_headers :
    fileImports headerLines = reactHeaders ∧ reactHeaders.Nodup := by
  decide

/-- Claim C2, counterexample: the file does have 17 lines, but its first
line is a comment rather than an import statement, so not every line of
the file is an import statement. -/
theorem blaze_header_first_line_not_import :
    sourceText.length = 17 ∧
      isImportLine (classifyLine (sourceText.getD 0 "")) = false := by
  decide

/-- Claim C2, amended: the file has 17 lines, of which exactly five are
`#import` statements, and every line is either an import statement, a
comment, a blank line, or another preprocessor directive (the guard). -/
theorem blaze_header_five_of_seventeen_lines_import :
    sourceText.length = 17 ∧
      headerLines.countP (fun l => isImportLine l) = 5 ∧
      headerLines.all
        (fun l => isImportLine l || isCommentLine l || isBlankLine l ||
          isDirectiveLine l) = true := by
  decide

/-- Claim C3: the file contains no declaration line (no function, type,
variable, or executable statement), and handing its empty list of
declarations to the compiler is the identity on every translation-unit
state. -/
theorem blaze_header_no_decls_identity :
    fileDecls headerLines = [] ∧
      ∀ st : CState, declareEntities st (fileDecls headerLines) = st := by
  have h : fileDecls headerLines = [] := by decide
  refine ⟨h, fun st => ?_⟩
  rw [h]
  cases st
  simp [declareEntities]

/-- Claim C4: processing the bridging header never fails — from every
translation-unit state the run returns a success value, never an error. -/
theorem blaze_header_processing_never_fails (st : CState) :
    exceptOk (processHeader st) = true := by
  rw [processHeader_eq st]
  rfl

/-- Claim C5, counterexample: from the empty translation-unit state,
processing the header yields a state whose macro environment is the
nonempty list holding the include guard, so the macro-definition component
of the state is not left unchanged. -/
theorem blaze_header_changes_macro_env :
    processHeader ⟨[], [], []⟩ =
        Except.ok (⟨[], [guardName], reactHeaders⟩ : CState) ∧
      ([guardName] : List String) ≠ [] := by
  decide

/-- Claim C5, amended: the file defines no entities — processing leaves the
entity component of every state unchanged; only the macro environment may
change (gaining the include guard) and the import list (gaining the five
React headers). -/
theorem blaze_header_entities_unchanged (st : CState) :
    ∃ st', processHeader st = .ok st' ∧ st'.entities = st.entities ∧
      (st'.macros = st.macros ∨ st'.macros = st.macros ++ [guardName]) ∧
      (st'.imports = st.imports ∨ st'.imports = st.imports ++ reactHeaders) := by
  rw [processHeader_eq st]
  refine ⟨_, rfl, ?_, ?_, ?_⟩ <;>
    by_cases h : guardName ∈ st.macros <;> simp [h]

/-- Claim C6, counterexample: the first line of the file is nonempty and
yet is not an import/include directive (it is a comment). -/
theorem blaze_header_nonempty_line_not_import :
    sourceText.getD 0 "" ≠ "" ∧
      isImportLine (classifyLine (sourceText.getD 0 "")) = false := by
  decide

/-- Claim C6, amended: every line of the file is a blank line, a comment,
or a preprocessor directive, and the file has no observable behavior: it
contains no declaration line. -/
theorem blaze_header_lines_comment_or_directive :
    headerLines.all
        (fun l => isBlankLine l || isCommentLine l || isDirectiveLine l) = true ∧
      fileDecls headerLines = [] := by
  decide

/-- Claim C7: the file introduces no global mutable variable — it has no
declaration lines at all, and processing it leaves the declared-entities
component of every translation-unit state unchanged. -/
theorem blaze_header_no_global_variables (st : CState) :
    fileDecls headerLines = [] ∧
      ∃ st', processHeader st = .ok st' ∧ st'.entities = st.entities := by
  refine ⟨by decide, ?_⟩
  rw [processHeader_eq st]
  refine ⟨_, rfl, ?_⟩
  by_cases h : guardName ∈ st.macros <;> simp [h]

/-- Claim C8: inclusion of the header is idempotent — processing it a
second time from the state the first run produced changes nothing, so two
inclusions in a translation unit equal one. -/
theorem blaze_header_idempotent (st : CState) :
    (processHeader st).bind processHeader = processHeader st := by
  rw [processHeader_eq st]
  by_cases h : guardName ∈ st.macros <;>
    simp [h, Except.bind, processHeader_eq]

/-- Claim C9: from any state where the guard macro is not yet defined,
processing the header defines exactly one macro — the resulting macro
environment is the starting one plus `Blaze_Bridging_Header_h`. -/
theorem blaze_header_defines_exactly_guard (st : CState)
    (h : guardName ∉ st.macros) :
    ∃ st', processHeader st = .ok st' ∧
      st'.macros = st.macros ++ [guardName] := by
  rw [processHeader_eq st]
  exact ⟨_, rfl, by simp [h]⟩

/-- Witness for claim C9, at the empty translation-unit state. -/
theorem blaze_header_defines_exactly_guard_witness :
    guardName ∉ (CState.mk [] [] []).macros ∧
      ∃ st', processHeader (CState.mk [] [] []) = .ok st' ∧
        st'.macros = (CState.mk [] [] []).macros ++ [guardName] :=
  ⟨by decide, blaze_header_defines_exactly_guard (CState.mk [] [] []) (by decide)⟩

/-- Claim C10: the effect of the header depends only on whether the guard
macro is defined — two states that agree on its definedness receive the
same added imports and the same added macro definitions. -/
theorem blaze_header_noninterference (s t : CState)
    (h : guardName ∈ s.macros ↔ guardName ∈ t.macros) :
    headerImportsAdded s = headerImportsAdded t ∧
      headerMacrosAdded s = headerMacrosAdded t := by
  unfold headerImportsAdded headerMacrosAdded
  rw [processHeader_eq s, processHeader_eq t]
  by_cases hs : guardName ∈ s.macros
  · have ht : guardName ∈ t.macros := h.mp hs
    simp [hs, ht, List.drop_length]
  · have ht : guardName ∉ t.macros := fun hm => hs (h.mpr hm)
    simp [hs, ht, List.drop_left, List.drop_length]

/-- Witness for claim C10: two states that agree that the guard is
undefined but differ in entities, other macros, and prior imports. -/
theorem blaze_header_noninterference_witness :
    (guardName ∈ (CState.mk [] ["OTHER_MACRO"] []).macros ↔
        guardName ∈ (CState.mk ["int x;"] [] ["Foo.h"]).macros) ∧
      (headerImportsAdded (CState.mk [] ["OTHER_MACRO"] []) =
          headerImportsAdded (CState.mk ["int x;"] [] ["Foo.h"]) ∧
        headerMacrosAdded (CState.mk [] ["OTHER_MACRO"] []) =
          headerMacrosAdded (CState.mk ["int x;"] [] ["Foo.h"])) :=
  ⟨by decide, blaze_header_noninterference _ _ (by decide)⟩

end Blaze
